import Mathlib

/-
Shallow embedding of the pg-user-and-database-cdk custom resource handlers:
- src/handler/main.ts (handleCreate, handleUpdate, handleDelete)
- src/latest_secret_version_handler/main.ts (onCreate, onUpdate, onDelete)
- the CDK construct's resource-properties defaulting (CHANGELOG.md inlined construct)

SQL issuance and connection opening are modelled as an explicit trace of
actions; the database is an abstract executor (Stmt -> state -> state x outcome)
so that both arbitrary error injection and a concrete Postgres-state semantics
can drive the same handler definitions.
-/

namespace PgUserDb

/-- Postgres error codes used by the handler, from PostgresErrorCodes in src/handler/main.ts. -/
def DUPLICATE_DATABASE : String := "42P04"

def DUPLICATE_OBJECT : String := "42710"

def INSUFFICIENT_PRIVILEGE : String := "42501"

def AUTHENTICATION_FAILED : String := "28P01"

/-- Postgres code for referencing a missing user or similar object (used only by the
concrete database-state semantics, not by the handler itself). -/
def UNDEFINED_OBJECT : String := "42704"

/-- Postgres code for referencing a missing database (used only by the concrete
database-state semantics, not by the handler itself). -/
def UNDEFINED_DATABASE : String := "3D000"

structure DbCredentials where
  username : String
  password : String
  deriving DecidableEq, Repr

inductive OnDelete
  | Delete
  | Retain
  deriving DecidableEq, Repr

inductive OnCreateIfExists
  | Fail
  | Adopt
  | DeleteAndRecreate
  deriving DecidableEq, Repr

inductive IgnoreCreate
  | Ignore
  | Create
  deriving DecidableEq, Repr

inductive AlwaysNever
  | Always
  | Never
  deriving DecidableEq, Repr

/-- The validated resource properties of the main handler (customResourcePropertiesSchema). -/
structure CustomResourceProperties where
  dbClusterHostname : String
  dbClusterPort : Nat
  dbSecretArn : String
  userSecretArn : String
  databaseName : String
  onDelete : OnDelete
  onCreateIfExists : OnCreateIfExists
  onUpdateIfUserDoesNotExist : IgnoreCreate
  onUpdateIfDatabaseDoesNotExist : IgnoreCreate
  onUpdateSetUserPassword : AlwaysNever
  onUpdateSetUserPermissions : AlwaysNever
  onUpdateSetDatabaseOwnership : AlwaysNever
  deriving DecidableEq, Repr

structure CreateEvent where
  ResourceProperties : CustomResourceProperties
  deriving DecidableEq, Repr

structure UpdateEvent where
  PhysicalResourceId : String
  ResourceProperties : CustomResourceProperties
  deriving DecidableEq, Repr

structure DeleteEvent where
  PhysicalResourceId : String
  ResourceProperties : CustomResourceProperties
  deriving DecidableEq, Repr

structure Response where
  PhysicalResourceId : String
  deriving DecidableEq, Repr

/-- The SQL statements the handler can issue, one constructor per template string. -/
inductive Stmt
  | createUser (username password : String)
  | alterUserPassword (username password : String)
  | alterUserPerms (username : String)
  | dropUser (username : String)
  | createDatabase (databaseName : String)
  | dropDatabase (databaseName : String)
  | alterDatabaseOwner (databaseName username : String)
  | dropDatabaseIfExists (databaseName : String)
  | dropUserIfExists (username : String)
  deriving DecidableEq, Repr

/-- Which lazily-connected client a query is issued on: the admin client
(connected to the postgres database with the cluster secret) or the user client
(connected to the target database with the user secret). -/
inductive ConnKind
  | admin
  | user
  deriving DecidableEq, Repr

/-- Observable actions of a handler run: opening a connection, issuing a query. -/
inductive Action
  | connect (kind : ConnKind) (databaseName : String)
  | query (kind : ConnKind) (stmt : Stmt)
  deriving DecidableEq, Repr

/-- Outcome of one awaited query: success, a thrown PostgresError carrying a code
(isPostgresError true), or a thrown value that is not a PostgresError. -/
inductive QueryOutcome
  | success
  | pgError (code : String)
  | otherError
  deriving DecidableEq, Repr

/-- Errors the handler can complete with. -/
inductive HandlerError
  | collision
  | identityViolation
  | pgRaised (code : String)
  | otherRaised
  deriving DecidableEq, Repr

/-- Running state of one handler invocation: the abstract database state, the
trace of actions so far, and the memoized-connection flags of the two lazy
client managers. -/
structure RunSt (σ : Type) where
  db : σ
  trace : List Action
  adminConn : Bool
  userConn : Bool
  deriving DecidableEq, Repr

def initSt {σ : Type} (db0 : σ) : RunSt σ :=
  { db := db0, trace := [], adminConn := false, userConn := false }

/-- Lazy memoized getClient of the admin manager (databaseName is always the
postgres database). -/
def getAdminClient {σ : Type} (st : RunSt σ) : RunSt σ :=
  if st.adminConn then st
  else { st with adminConn := true, trace := st.trace ++ [Action.connect ConnKind.admin "postgres"] }

/-- Lazy memoized getClient of the user manager (connected to the target database). -/
def getUserClient {σ : Type} (props : CustomResourceProperties) (st : RunSt σ) : RunSt σ :=
  if st.userConn then st
  else { st with userConn := true, trace := st.trace ++ [Action.connect ConnKind.user props.databaseName] }

/-- Issue one query through the abstract executor, recording it in the trace. -/
def runQuery {σ : Type} (exec : Stmt → σ → σ × QueryOutcome) (st : RunSt σ)
    (k : ConnKind) (s : Stmt) : RunSt σ × QueryOutcome :=
  let r := exec s st.db
  ({ st with db := r.1, trace := st.trace ++ [Action.query k s] }, r.2)

/-- A failed query outcome as the error the handler propagates (a query with no
surrounding catch re-raises whatever was thrown). -/
def outcomeError : QueryOutcome → Option HandlerError
  | QueryOutcome.success => none
  | QueryOutcome.pgError code => some (HandlerError.pgRaised code)
  | QueryOutcome.otherError => some HandlerError.otherRaised

/-- Run queries in sequence with no catch: abort on the first failure,
re-raising it. -/
def runStmts {σ : Type} (exec : Stmt → σ → σ × QueryOutcome) (st : RunSt σ) :
    List (ConnKind × Stmt) → RunSt σ × Option HandlerError
  | [] => (st, none)
  | (k, s) :: rest =>
    let r := runQuery exec st k s
    match r.2 with
    | QueryOutcome.success => runStmts exec r.1 rest
    | QueryOutcome.pgError code => (r.1, some (HandlerError.pgRaised code))
    | QueryOutcome.otherError => (r.1, some HandlerError.otherRaised)

/-- Sequence two early-exit steps: a pending error short-circuits. -/
def stepThen {σ : Type} (r : RunSt σ × Option HandlerError)
    (f : RunSt σ → RunSt σ × Option HandlerError) : RunSt σ × Option HandlerError :=
  match r with
  | (st, some e) => (st, some e)
  | (st, none) => f st

/-- The query actions of a trace, with the connection each was issued on. -/
def queriesOf (t : List Action) : List (ConnKind × Stmt) :=
  t.filterMap (fun a =>
    match a with
    | Action.query k s => some (k, s)
    | Action.connect _ _ => none)

/-- handleCreate from src/handler/main.ts. The secrets map plays the role of
SecretsManager credential resolution; exec plays the role of the live database. -/
def handleCreate {σ : Type} (secrets : String → DbCredentials)
    (exec : Stmt → σ → σ × QueryOutcome) (db0 : σ) (event : CreateEvent) :
    RunSt σ × Except HandlerError Response :=
  let props := event.ResourceProperties
  let userCredentials := secrets props.userSecretArn
  let adminCredentials := secrets props.dbSecretArn
  if userCredentials.username = adminCredentials.username then
    (initSt db0, Except.error HandlerError.collision)
  else
    let st1 := getAdminClient (initSt db0)
    let createUserStmt := Stmt.createUser userCredentials.username userCredentials.password
    let r1 := runQuery exec st1 ConnKind.admin createUserStmt
    let afterUser : RunSt σ × Option HandlerError :=
      match r1.2 with
      | QueryOutcome.success => (r1.1, none)
      | QueryOutcome.otherError => (r1.1, some HandlerError.otherRaised)
      | QueryOutcome.pgError code =>
        if props.onCreateIfExists = OnCreateIfExists.Adopt ∧ code = DUPLICATE_OBJECT then
          runStmts exec r1.1
            [(ConnKind.admin, Stmt.alterUserPassword userCredentials.username userCredentials.password),
             (ConnKind.admin, Stmt.alterUserPerms userCredentials.username)]
        else if props.onCreateIfExists = OnCreateIfExists.DeleteAndRecreate ∧ code = DUPLICATE_OBJECT then
          runStmts exec r1.1
            [(ConnKind.admin, Stmt.dropUser userCredentials.username),
             (ConnKind.admin, createUserStmt)]
        else
          (r1.1, some (HandlerError.pgRaised code))
    match afterUser.2 with
    | some e => (afterUser.1, Except.error e)
    | none =>
      let st2 := getUserClient props afterUser.1
      let r2 := runQuery exec st2 ConnKind.user (Stmt.createDatabase props.databaseName)
      let afterDb : RunSt σ × Option HandlerError :=
        match r2.2 with
        | QueryOutcome.success => (r2.1, none)
        | QueryOutcome.otherError => (r2.1, some HandlerError.otherRaised)
        | QueryOutcome.pgError code =>
          if props.onCreateIfExists = OnCreateIfExists.Adopt ∧ code = DUPLICATE_DATABASE then
            runStmts exec r2.1
              [(ConnKind.admin, Stmt.alterDatabaseOwner props.databaseName userCredentials.username)]
          else if props.onCreateIfExists = OnCreateIfExists.DeleteAndRecreate then
            if code = DUPLICATE_DATABASE then
              runStmts exec r2.1
                [(ConnKind.admin, Stmt.dropDatabase props.databaseName),
                 (ConnKind.user, Stmt.createDatabase props.databaseName)]
            else
              (r2.1, none)
          else
            (r2.1, some (HandlerError.pgRaised code))
      match afterDb.2 with
      | some e => (afterDb.1, Except.error e)
      | none =>
        (afterDb.1,
         Except.ok
           { PhysicalResourceId :=
               String.intercalate "/"
                 [props.dbClusterHostname, props.databaseName, userCredentials.username] })

/-- handleUpdate from src/handler/main.ts: identity-token validation, then five
policy axes in fixed order. -/
def handleUpdate {σ : Type} (secrets : String → DbCredentials)
    (exec : Stmt → σ → σ × QueryOutcome) (db0 : σ) (event : UpdateEvent) :
    RunSt σ × Except HandlerError Response :=
  let props := event.ResourceProperties
  let userCredentials := secrets props.userSecretArn
  if event.PhysicalResourceId ≠
      String.intercalate "/" [props.dbClusterHostname, props.databaseName, userCredentials.username] then
    (initSt db0, Except.error HandlerError.identityViolation)
  else
    let s1 : RunSt σ × Option HandlerError :=
      if props.onUpdateIfUserDoesNotExist = IgnoreCreate.Create then
        let st := getAdminClient (initSt db0)
        let r := runQuery exec st ConnKind.admin
          (Stmt.createUser userCredentials.username userCredentials.password)
        match r.2 with
        | QueryOutcome.success => (r.1, none)
        | QueryOutcome.otherError => (r.1, some HandlerError.otherRaised)
        | QueryOutcome.pgError code =>
          if code ≠ DUPLICATE_OBJECT then (r.1, some (HandlerError.pgRaised code))
          else (r.1, none)
      else (initSt db0, none)
    let s2 := stepThen s1 (fun st =>
      if props.onUpdateSetUserPassword = AlwaysNever.Always then
        let st1 := getAdminClient st
        let r := runQuery exec st1 ConnKind.admin
          (Stmt.alterUserPassword userCredentials.username userCredentials.password)
        (r.1, outcomeError r.2)
      else (st, none))
    let s3 := stepThen s2 (fun st =>
      if props.onUpdateSetUserPermissions = AlwaysNever.Always then
        let st1 := getAdminClient st
        let r := runQuery exec st1 ConnKind.admin (Stmt.alterUserPerms userCredentials.username)
        (r.1, outcomeError r.2)
      else (st, none))
    let s4 := stepThen s3 (fun st =>
      if props.onUpdateIfDatabaseDoesNotExist = IgnoreCreate.Create then
        let st1 := getUserClient props st
        let r := runQuery exec st1 ConnKind.user (Stmt.createDatabase props.databaseName)
        match r.2 with
        | QueryOutcome.success => (r.1, none)
        | QueryOutcome.otherError => (r.1, some HandlerError.otherRaised)
        | QueryOutcome.pgError code =>
          if code ≠ DUPLICATE_DATABASE then (r.1, some (HandlerError.pgRaised code))
          else (r.1, none)
      else (st, none))
    let s5 := stepThen s4 (fun st =>
      if props.onUpdateSetDatabaseOwnership = AlwaysNever.Always then
        let st1 := getAdminClient st
        let r := runQuery exec st1 ConnKind.admin
          (Stmt.alterDatabaseOwner props.databaseName userCredentials.username)
        (r.1, outcomeError r.2)
      else (st, none))
    match s5.2 with
    | some e => (s5.1, Except.error e)
    | none => (s5.1, Except.ok { PhysicalResourceId := event.PhysicalResourceId })

/-- handleDelete from src/handler/main.ts: Retain is a pure no-op; Delete checks
the collision invariant then drops database and user with IF EXISTS on the admin
connection. -/
def handleDelete {σ : Type} (secrets : String → DbCredentials)
    (exec : Stmt → σ → σ × QueryOutcome) (db0 : σ) (event : DeleteEvent) :
    RunSt σ × Except HandlerError Response :=
  let props := event.ResourceProperties
  if props.onDelete = OnDelete.Retain then
    (initSt db0, Except.ok { PhysicalResourceId := event.PhysicalResourceId })
  else
    let userCredentials := secrets props.userSecretArn
    let adminCredentials := secrets props.dbSecretArn
    if userCredentials.username = adminCredentials.username then
      (initSt db0, Except.error HandlerError.collision)
    else
      let st := getAdminClient (initSt db0)
      let r := runStmts exec st
        [(ConnKind.admin, Stmt.dropDatabaseIfExists props.databaseName),
         (ConnKind.admin, Stmt.dropUserIfExists userCredentials.username)]
      match r.2 with
      | some e => (r.1, Except.error e)
      | none => (r.1, Except.ok { PhysicalResourceId := event.PhysicalResourceId })

/-- Abstract Postgres state: which users and which databases exist. -/
structure DbState where
  users : List String
  databases : List String
  deriving DecidableEq, Repr

/-- Concrete Postgres semantics of the statements issued by the handler:
duplicates raise the duplicate codes, missing objects raise undefined codes,
and the IF EXISTS drops tolerate absence. -/
def pgExec : Stmt → DbState → DbState × QueryOutcome
  | Stmt.createUser u _, s =>
    if u ∈ s.users then (s, QueryOutcome.pgError DUPLICATE_OBJECT)
    else ({ s with users := u :: s.users }, QueryOutcome.success)
  | Stmt.alterUserPassword u _, s =>
    if u ∈ s.users then (s, QueryOutcome.success)
    else (s, QueryOutcome.pgError UNDEFINED_OBJECT)
  | Stmt.alterUserPerms u, s =>
    if u ∈ s.users then (s, QueryOutcome.success)
    else (s, QueryOutcome.pgError UNDEFINED_OBJECT)
  | Stmt.dropUser u, s =>
    if u ∈ s.users then ({ s with users := s.users.erase u }, QueryOutcome.success)
    else (s, QueryOutcome.pgError UNDEFINED_OBJECT)
  | Stmt.createDatabase d, s =>
    if d ∈ s.databases then (s, QueryOutcome.pgError DUPLICATE_DATABASE)
    else ({ s with databases := d :: s.databases }, QueryOutcome.success)
  | Stmt.dropDatabase d, s =>
    if d ∈ s.databases then ({ s with databases := s.databases.erase d }, QueryOutcome.success)
    else (s, QueryOutcome.pgError UNDEFINED_DATABASE)
  | Stmt.alterDatabaseOwner d _, s =>
    if d ∈ s.databases then (s, QueryOutcome.success)
    else (s, QueryOutcome.pgError UNDEFINED_DATABASE)
  | Stmt.dropDatabaseIfExists d, s =>
    ({ s with databases := s.databases.erase d }, QueryOutcome.success)
  | Stmt.dropUserIfExists u, s =>
    ({ s with users := s.users.erase u }, QueryOutcome.success)

/-- An executor that injects outcomes by query position: the state counts
queries issued so far. -/
def envExec (env : Nat → QueryOutcome) : Stmt → Nat → Nat × QueryOutcome :=
  fun _ n => (n + 1, env n)

/-- An executor on which every query succeeds. -/
def allSuccess : Stmt → Unit → Unit × QueryOutcome :=
  fun _ _ => ((), QueryOutcome.success)

/-- The construct-side optional policy properties of PostgresUserAndDatabaseProps
(only the policy fields, which are the ones with defaulting behavior). -/
structure PostgresUserAndDatabaseProps where
  onCreateIfExists : Option OnCreateIfExists
  onDelete : Option OnDelete
  onUpdateIfUserDoesNotExist : Option IgnoreCreate
  onUpdateIfDatabaseDoesNotExist : Option IgnoreCreate
  onUpdateSetUserPassword : Option AlwaysNever
  onUpdateSetUserPermissions : Option AlwaysNever
  onUpdateSetDatabaseOwnership : Option AlwaysNever
  deriving DecidableEq, Repr

/-- The resolved policy fields of the custom resource properties. -/
structure ResolvedPolicies where
  onDelete : OnDelete
  onCreateIfExists : OnCreateIfExists
  onUpdateIfUserDoesNotExist : IgnoreCreate
  onUpdateIfDatabaseDoesNotExist : IgnoreCreate
  onUpdateSetUserPassword : AlwaysNever
  onUpdateSetUserPermissions : AlwaysNever
  onUpdateSetDatabaseOwnership : AlwaysNever
  deriving DecidableEq, Repr

/-- The defaulting of the seven policy enums performed by the PostgresUserAndDatabase
construct when building the custom resource properties. -/
def resolvePolicies (props : PostgresUserAndDatabaseProps) : ResolvedPolicies :=
  { onDelete := props.onDelete.getD OnDelete.Delete
    onCreateIfExists := props.onCreateIfExists.getD OnCreateIfExists.Fail
    onUpdateIfUserDoesNotExist := props.onUpdateIfUserDoesNotExist.getD IgnoreCreate.Ignore
    onUpdateIfDatabaseDoesNotExist := props.onUpdateIfDatabaseDoesNotExist.getD IgnoreCreate.Ignore
    onUpdateSetUserPassword := props.onUpdateSetUserPassword.getD AlwaysNever.Never
    onUpdateSetUserPermissions := props.onUpdateSetUserPermissions.getD AlwaysNever.Never
    onUpdateSetDatabaseOwnership := props.onUpdateSetDatabaseOwnership.getD AlwaysNever.Never }

structure LsvResourceProperties where
  secretArn : String
  datetime : String
  deriving DecidableEq, Repr

structure LsvOnCreateEvent where
  ResourceProperties : LsvResourceProperties
  deriving DecidableEq, Repr

structure LsvOnUpdateEvent where
  PhysicalResourceId : String
  ResourceProperties : LsvResourceProperties
  deriving DecidableEq, Repr

structure LsvOnDeleteEvent where
  PhysicalResourceId : String
  ResourceProperties : LsvResourceProperties
  deriving DecidableEq, Repr

structure LsvData where
  LatestVersionId : String
  deriving DecidableEq, Repr

structure LsvResponse where
  PhysicalResourceId : String
  Data : LsvData
  deriving DecidableEq, Repr

/-- onCreate of src/latest_secret_version_handler/main.ts; latestVersion models
the ListSecretVersionIds lookup of the AWSCURRENT version id. -/
def lsvOnCreate (latestVersion : String → Option String) (event : LsvOnCreateEvent) :
    Except String LsvResponse :=
  match latestVersion event.ResourceProperties.secretArn with
  | some v =>
    Except.ok { PhysicalResourceId := event.ResourceProperties.secretArn
                Data := { LatestVersionId := v } }
  | none =>
    Except.error ("No latest version found for secret " ++ event.ResourceProperties.secretArn)

/-- The update event with its RequestType replaced by Create, as built by the
spread in onUpdate. -/
def lsvAsCreateEvent (event : LsvOnUpdateEvent) : LsvOnCreateEvent :=
  { ResourceProperties := event.ResourceProperties }

/-- onUpdate of src/latest_secret_version_handler/main.ts. -/
def lsvOnUpdate (latestVersion : String → Option String) (event : LsvOnUpdateEvent) :
    Except String LsvResponse :=
  lsvOnCreate latestVersion (lsvAsCreateEvent event)

/-- onDelete of src/latest_secret_version_handler/main.ts: echoes the recorded
version id back without any lookup. -/
def lsvOnDelete (event : LsvOnDeleteEvent) : Except String LsvResponse :=
  Except.ok { PhysicalResourceId := event.ResourceProperties.secretArn
              Data := { LatestVersionId := event.PhysicalResourceId } }

/-- Sample resource properties used by concrete witnesses. -/
def sampleProps : CustomResourceProperties :=
  { dbClusterHostname := "db.local"
    dbClusterPort := 5432
    dbSecretArn := "arn-admin"
    userSecretArn := "arn-user"
    databaseName := "app"
    onDelete := OnDelete.Delete
    onCreateIfExists := OnCreateIfExists.Fail
    onUpdateIfUserDoesNotExist := IgnoreCreate.Ignore
    onUpdateIfDatabaseDoesNotExist := IgnoreCreate.Ignore
    onUpdateSetUserPassword := AlwaysNever.Never
    onUpdateSetUserPermissions := AlwaysNever.Never
    onUpdateSetDatabaseOwnership := AlwaysNever.Never }

/-- Sample secrets map: distinct admin and user usernames. -/
def sampleSecrets : String → DbCredentials :=
  fun arn => if arn = "arn-admin" then { username := "root", password := "rootpw" }
             else { username := "svc", password := "svcpw" }

/-- Sample properties with the Adopt create policy. -/
def adoptProps : CustomResourceProperties :=
  { sampleProps with onCreateIfExists := OnCreateIfExists.Adopt }

/-- Sample properties with the DeleteAndRecreate create policy. -/
def dnrProps : CustomResourceProperties :=
  { sampleProps with onCreateIfExists := OnCreateIfExists.DeleteAndRecreate }

/-- Sample properties with the password axis set to Always. -/
def pwAlwaysProps : CustomResourceProperties :=
  { sampleProps with onUpdateSetUserPassword := AlwaysNever.Always }

/-- Error injection: the database-creation query (query index 1 of a create run)
fails with insufficient privilege, everything else succeeds. -/
def insufficientPrivAtDbCreate : Nat → QueryOutcome :=
  fun i => if i = 1 then QueryOutcome.pgError INSUFFICIENT_PRIVILEGE else QueryOutcome.success

/-- Error injection: the first query fails with the given code, everything else
succeeds. -/
def failFirst (code : String) : Nat → QueryOutcome :=
  fun i => if i = 0 then QueryOutcome.pgError code else QueryOutcome.success

/-- A sequence of uncaught queries only ever re-raises what the database threw:
it never produces an identity-violation error. -/
theorem runStmts_not_identity {σ : Type} (exec : Stmt → σ → σ × QueryOutcome)
    (st : RunSt σ) (l : List (ConnKind × Stmt)) :
    (runStmts exec st l).2 ≠ some HandlerError.identityViolation := by
  induction l generalizing st with
  | nil => simp [runStmts]
  | cons hd tl ih =>
    obtain ⟨k, s⟩ := hd
    rw [runStmts]
    cases h : (runQuery exec st k s).2 <;> simp [h, ih]

/-- C3: a Create request whose user secret and admin secret resolve to the same
username fails with the collision error while the trace is still empty: no
connection has been opened and no SQL statement has been issued. -/
theorem create_collision_before_sql {σ : Type} (secrets : String → DbCredentials)
    (exec : Stmt → σ → σ × QueryOutcome) (db0 : σ) (event : CreateEvent)
    (h : (secrets event.ResourceProperties.userSecretArn).username
       = (secrets event.ResourceProperties.dbSecretArn).username) :
    handleCreate secrets exec db0 event = (initSt db0, Except.error HandlerError.collision) := by
  rw [handleCreate]
  simp [h]

/-- Witness for C3 at a concrete event whose secrets map resolves both ARNs to
the same username. -/
theorem create_collision_before_sql_witness :
    ((fun _ => { username := "root", password := "pw" } : String → DbCredentials) "arn-user").username
      = ((fun _ => { username := "root", password := "pw" } : String → DbCredentials) "arn-admin").username
    ∧ handleCreate (fun _ => { username := "root", password := "pw" }) allSuccess ()
        { ResourceProperties := sampleProps }
      = (initSt (), Except.error HandlerError.collision) :=
  ⟨rfl, create_collision_before_sql _ _ _ _ rfl⟩

/-- C6: a Delete request with onDelete set to Retain performs no database action
at all (empty trace, abstract database state untouched) and returns the
PhysicalResourceId supplied in the event. -/
theorem delete_retain_noop {σ : Type} (secrets : String → DbCredentials)
    (exec : Stmt → σ → σ × QueryOutcome) (db0 : σ) (event : DeleteEvent)
    (h : event.ResourceProperties.onDelete = OnDelete.Retain) :
    handleDelete secrets exec db0 event
      = (initSt db0, Except.ok { PhysicalResourceId := event.PhysicalResourceId }) := by
  rw [handleDelete]
  simp [h]

/-- Witness for C6 at a concrete Retain event. -/
theorem delete_retain_noop_witness :
    ({ sampleProps with onDelete := OnDelete.Retain } : CustomResourceProperties).onDelete
      = OnDelete.Retain
    ∧ handleDelete sampleSecrets pgExec { users := ["svc"], databases := ["app"] }
        { PhysicalResourceId := "tok", ResourceProperties := { sampleProps with onDelete := OnDelete.Retain } }
      = (initSt { users := ["svc"], databases := ["app"] },
         Except.ok { PhysicalResourceId := "tok" }) :=
  ⟨rfl, delete_retain_noop _ _ _ _ rfl⟩

/-- C8: each of the seven policy enums, when absent from the construct props,
defaults to the safe choice Fail, Delete, Ignore, Ignore, Never, Never, Never. -/
theorem policy_defaults (props : PostgresUserAndDatabaseProps)
    (h1 : props.onCreateIfExists = none) (h2 : props.onDelete = none)
    (h3 : props.onUpdateIfUserDoesNotExist = none)
    (h4 : props.onUpdateIfDatabaseDoesNotExist = none)
    (h5 : props.onUpdateSetUserPassword = none)
    (h6 : props.onUpdateSetUserPermissions = none)
    (h7 : props.onUpdateSetDatabaseOwnership = none) :
    resolvePolicies props
      = { onDelete := OnDelete.Delete
          onCreateIfExists := OnCreateIfExists.Fail
          onUpdateIfUserDoesNotExist := IgnoreCreate.Ignore
          onUpdateIfDatabaseDoesNotExist := IgnoreCreate.Ignore
          onUpdateSetUserPassword := AlwaysNever.Never
          onUpdateSetUserPermissions := AlwaysNever.Never
          onUpdateSetDatabaseOwnership := AlwaysNever.Never } := by
  simp [resolvePolicies, h1, h2, h3, h4, h5, h6, h7]

/-- Witness for C8 at the props record with every policy absent. -/
theorem policy_defaults_witness :
    resolvePolicies { onCreateIfExists := none, onDelete := none,
                      onUpdateIfUserDoesNotExist := none, onUpdateIfDatabaseDoesNotExist := none,
                      onUpdateSetUserPassword := none, onUpdateSetUserPermissions := none,
                      onUpdateSetDatabaseOwnership := none }
      = { onDelete := OnDelete.Delete
          onCreateIfExists := OnCreateIfExists.Fail
          onUpdateIfUserDoesNotExist := IgnoreCreate.Ignore
          onUpdateIfDatabaseDoesNotExist := IgnoreCreate.Ignore
          onUpdateSetUserPassword := AlwaysNever.Never
          onUpdateSetUserPermissions := AlwaysNever.Never
          onUpdateSetDatabaseOwnership := AlwaysNever.Never } :=
  policy_defaults _ rfl rfl rfl rfl rfl rfl rfl

/-- C9: in the secret-version handler, every Update event is answered exactly by
the Create handler applied to the event with its RequestType replaced by Create,
and every Delete event is answered with the caller-supplied PhysicalResourceId
as the LatestVersionId, independently of any version lookup. -/
theorem lsv_update_is_create_delete_echo (latestVersion : String → Option String)
    (uev : LsvOnUpdateEvent) (dev : LsvOnDeleteEvent) :
    lsvOnUpdate latestVersion uev = lsvOnCreate latestVersion (lsvAsCreateEvent uev)
    ∧ lsvOnDelete dev
      = Except.ok { PhysicalResourceId := dev.ResourceProperties.secretArn
                    Data := { LatestVersionId := dev.PhysicalResourceId } } :=
  ⟨rfl, rfl⟩

/-- handleDelete can fail with a collision or a re-raised database error, but
never with an identity violation: Delete performs no identity-token validation. -/
theorem handleDelete_not_identity {σ : Type} (secrets : String → DbCredentials)
    (exec : Stmt → σ → σ × QueryOutcome) (db0 : σ) (event : DeleteEvent) :
    (handleDelete secrets exec db0 event).2 ≠ Except.error HandlerError.identityViolation := by
  rw [handleDelete]
  by_cases h1 : event.ResourceProperties.onDelete = OnDelete.Retain
  · simp [h1]
  · by_cases h2 : (secrets event.ResourceProperties.userSecretArn).username
        = (secrets event.ResourceProperties.dbSecretArn).username
    · simp [h1, h2]
    · have hni := runStmts_not_identity exec (getAdminClient (initSt db0))
        [(ConnKind.admin, Stmt.dropDatabaseIfExists event.ResourceProperties.databaseName),
         (ConnKind.admin, Stmt.dropUserIfExists (secrets event.ResourceProperties.userSecretArn).username)]
      simp only [h1, h2, if_false]
      rcases hr : (runStmts exec (getAdminClient (initSt db0))
        [(ConnKind.admin, Stmt.dropDatabaseIfExists event.ResourceProperties.databaseName),
         (ConnKind.admin, Stmt.dropUserIfExists (secrets event.ResourceProperties.userSecretArn).username)]).2
        with _ | e
      · simp [hr]
      · rw [hr] at hni
        simp only [hr]
        simpa using hni

/-- C1 (amended): an Update request whose supplied PhysicalResourceId does not
equal host/databaseName/username joined with a slash fails with the identity
violation while the trace is still empty, so before any SQL; Delete requests
perform no identity-token validation and never fail with an identity violation. -/
theorem update_identity_violation_before_sql {σ : Type} (secrets : String → DbCredentials)
    (exec : Stmt → σ → σ × QueryOutcome) (db0 : σ) (uev : UpdateEvent) (dev : DeleteEvent)
    (h : uev.PhysicalResourceId ≠ String.intercalate "/"
        [uev.ResourceProperties.dbClusterHostname, uev.ResourceProperties.databaseName,
         (secrets uev.ResourceProperties.userSecretArn).username]) :
    handleUpdate secrets exec db0 uev = (initSt db0, Except.error HandlerError.identityViolation)
    ∧ (handleDelete secrets exec db0 dev).2 ≠ Except.error HandlerError.identityViolation := by
  constructor
  · rw [handleUpdate]
    simp [h]
  · exact handleDelete_not_identity secrets exec db0 dev

/-- Witness for C1 (amended) at a concrete mismatching Update token. -/
theorem update_identity_violation_before_sql_witness :
    ("bogus" : String) ≠ String.intercalate "/" ["db.local", "app", "svc"]
    ∧ (handleUpdate sampleSecrets allSuccess ()
          { PhysicalResourceId := "bogus", ResourceProperties := sampleProps }
        = (initSt (), Except.error HandlerError.identityViolation)
      ∧ (handleDelete sampleSecrets allSuccess ()
          { PhysicalResourceId := "bogus", ResourceProperties := sampleProps }).2
        ≠ Except.error HandlerError.identityViolation) :=
  ⟨by decide,
   update_identity_violation_before_sql sampleSecrets allSuccess ()
     { PhysicalResourceId := "bogus", ResourceProperties := sampleProps }
     { PhysicalResourceId := "bogus", ResourceProperties := sampleProps } (by decide)⟩

/-- C1 counterexample: a Delete request whose supplied token does not match the
recomputed host/databaseName/username identity is not rejected: with
onDelete=Delete it issues both drop statements and completes successfully,
refuting the claim that every Delete with a mismatched token fails with an
identity violation before issuing SQL. -/
theorem delete_identity_not_checked_cex :
    ("bogus" : String) ≠ String.intercalate "/" ["db.local", "app", "svc"]
    ∧ (handleDelete sampleSecrets pgExec { users := ["svc"], databases := ["app"] }
        { PhysicalResourceId := "bogus", ResourceProperties := sampleProps }).2
      = Except.ok { PhysicalResourceId := "bogus" }
    ∧ queriesOf (handleDelete sampleSecrets pgExec { users := ["svc"], databases := ["app"] }
        { PhysicalResourceId := "bogus", ResourceProperties := sampleProps }).1.trace
      = [(ConnKind.admin, Stmt.dropDatabaseIfExists "app"),
         (ConnKind.admin, Stmt.dropUserIfExists "svc")] := by
  refine ⟨by decide, rfl, by decide⟩

/-- C2 (code-bug exhibit): with onCreateIfExists=DeleteAndRecreate, an
insufficient-privilege error raised by CREATE DATABASE is silently swallowed:
the run still returns the normal identity token and issues no further statement,
instead of re-raising the non-DuplicateDatabase error. -/
theorem create_dnr_swallows_nonduplicate_error :
    (handleCreate sampleSecrets (envExec insufficientPrivAtDbCreate) 0
        { ResourceProperties := dnrProps }).2
      = Except.ok { PhysicalResourceId := "db.local/app/svc" }
    ∧ queriesOf (handleCreate sampleSecrets (envExec insufficientPrivAtDbCreate) 0
        { ResourceProperties := dnrProps }).1.trace
      = [(ConnKind.admin, Stmt.createUser "svc" "svcpw"),
         (ConnKind.user, Stmt.createDatabase "app")] := by
  exact ⟨rfl, by decide⟩

/-- C5: a Delete request with onDelete=Delete issues exactly DROP DATABASE IF
EXISTS then DROP USER IF EXISTS, both on the admin connection, succeeds, and
running the same request again from the resulting database state succeeds as
well (drop-if-exists idempotence). -/
theorem delete_drop_if_exists_idempotent (secrets : String → DbCredentials)
    (s0 : DbState) (event : DeleteEvent)
    (hdel : event.ResourceProperties.onDelete = OnDelete.Delete)
    (hne : (secrets event.ResourceProperties.userSecretArn).username
         ≠ (secrets event.ResourceProperties.dbSecretArn).username) :
    (handleDelete secrets pgExec s0 event).2
      = Except.ok { PhysicalResourceId := event.PhysicalResourceId }
    ∧ queriesOf (handleDelete secrets pgExec s0 event).1.trace
        = [(ConnKind.admin, Stmt.dropDatabaseIfExists event.ResourceProperties.databaseName),
           (ConnKind.admin, Stmt.dropUserIfExists (secrets event.ResourceProperties.userSecretArn).username)]
    ∧ (handleDelete secrets pgExec (handleDelete secrets pgExec s0 event).1.db event).2
        = Except.ok { PhysicalResourceId := event.PhysicalResourceId } := by
  refine ⟨?_, ?_, ?_⟩ <;>
    simp [handleDelete, hdel, hne, runStmts, runQuery, pgExec, getAdminClient, initSt, queriesOf]

/-- Witness for C5 at a concrete delete event and database state. -/
theorem delete_drop_if_exists_idempotent_witness :
    sampleProps.onDelete = OnDelete.Delete
    ∧ (sampleSecrets "arn-user").username ≠ (sampleSecrets "arn-admin").username
    ∧ ((handleDelete sampleSecrets pgExec { users := ["svc"], databases := ["app"] }
          { PhysicalResourceId := "db.local/app/svc", ResourceProperties := sampleProps }).2
        = Except.ok { PhysicalResourceId := "db.local/app/svc" }
      ∧ queriesOf (handleDelete sampleSecrets pgExec { users := ["svc"], databases := ["app"] }
          { PhysicalResourceId := "db.local/app/svc", ResourceProperties := sampleProps }).1.trace
          = [(ConnKind.admin, Stmt.dropDatabaseIfExists "app"),
             (ConnKind.admin, Stmt.dropUserIfExists "svc")]
      ∧ (handleDelete sampleSecrets pgExec
            (handleDelete sampleSecrets pgExec { users := ["svc"], databases := ["app"] }
              { PhysicalResourceId := "db.local/app/svc", ResourceProperties := sampleProps }).1.db
            { PhysicalResourceId := "db.local/app/svc", ResourceProperties := sampleProps }).2
          = Except.ok { PhysicalResourceId := "db.local/app/svc" }) :=
  ⟨rfl, by decide,
   delete_drop_if_exists_idempotent sampleSecrets { users := ["svc"], databases := ["app"] }
     { PhysicalResourceId := "db.local/app/svc", ResourceProperties := sampleProps } rfl (by decide)⟩

/-- C7: an Update whose token validates, with onUpdateSetUserPassword=Always and
every other update policy Never or Ignore, issues exactly one SQL statement, the
password ALTER USER on the admin connection, and returns the input
PhysicalResourceId. -/
theorem update_password_only (secrets : String → DbCredentials) (event : UpdateEvent)
    (htok : event.PhysicalResourceId = String.intercalate "/"
        [event.ResourceProperties.dbClusterHostname, event.ResourceProperties.databaseName,
         (secrets event.ResourceProperties.userSecretArn).username])
    (h1 : event.ResourceProperties.onUpdateSetUserPassword = AlwaysNever.Always)
    (h2 : event.ResourceProperties.onUpdateIfUserDoesNotExist = IgnoreCreate.Ignore)
    (h3 : event.ResourceProperties.onUpdateIfDatabaseDoesNotExist = IgnoreCreate.Ignore)
    (h4 : event.ResourceProperties.onUpdateSetUserPermissions = AlwaysNever.Never)
    (h5 : event.ResourceProperties.onUpdateSetDatabaseOwnership = AlwaysNever.Never) :
    queriesOf (handleUpdate secrets allSuccess () event).1.trace
      = [(ConnKind.admin,
          Stmt.alterUserPassword (secrets event.ResourceProperties.userSecretArn).username
            (secrets event.ResourceProperties.userSecretArn).password)]
    ∧ (handleUpdate secrets allSuccess () event).2
      = Except.ok { PhysicalResourceId := event.PhysicalResourceId } := by
  constructor <;>
    simp [handleUpdate, htok, h1, h2, h3, h4, h5, stepThen, allSuccess, runQuery,
          getAdminClient, getUserClient, initSt, queriesOf, outcomeError]

/-- Witness for C7 at a concrete matching-token update event with only the
password policy enabled. -/
theorem update_password_only_witness :
    ("db.local/app/svc" : String) = String.intercalate "/" ["db.local", "app", "svc"]
    ∧ (queriesOf (handleUpdate sampleSecrets allSuccess ()
          { PhysicalResourceId := "db.local/app/svc", ResourceProperties := pwAlwaysProps }).1.trace
        = [(ConnKind.admin, Stmt.alterUserPassword "svc" "svcpw")]
      ∧ (handleUpdate sampleSecrets allSuccess ()
          { PhysicalResourceId := "db.local/app/svc", ResourceProperties := pwAlwaysProps }).2
        = Except.ok { PhysicalResourceId := "db.local/app/svc" }) :=
  ⟨by decide,
   update_password_only sampleSecrets
     { PhysicalResourceId := "db.local/app/svc", ResourceProperties := pwAlwaysProps }
     (by decide) rfl rfl rfl rfl rfl⟩

/-- C10: Update performs no admin-versus-user collision check: even when the
user secret and the admin secret resolve to the same username, an Update with a
valid token completes successfully (never a collision error) and still issues
its policy-guarded statements, such as the password ALTER when
onUpdateSetUserPassword=Always. -/
theorem update_no_collision_check (secrets : String → DbCredentials) (event : UpdateEvent)
    (htok : event.PhysicalResourceId = String.intercalate "/"
        [event.ResourceProperties.dbClusterHostname, event.ResourceProperties.databaseName,
         (secrets event.ResourceProperties.userSecretArn).username])
    (heq : (secrets event.ResourceProperties.userSecretArn).username
         = (secrets event.ResourceProperties.dbSecretArn).username) :
    (handleUpdate secrets allSuccess () event).2
      = Except.ok { PhysicalResourceId := event.PhysicalResourceId }
    ∧ (event.ResourceProperties.onUpdateSetUserPassword = AlwaysNever.Always →
        (ConnKind.admin,
         Stmt.alterUserPassword (secrets event.ResourceProperties.userSecretArn).username
           (secrets event.ResourceProperties.userSecretArn).password)
          ∈ queriesOf (handleUpdate secrets allSuccess () event).1.trace) := by
  obtain ⟨pid, props⟩ := event
  simp only at htok
  cases h1 : props.onUpdateIfUserDoesNotExist <;>
    cases h2 : props.onUpdateSetUserPassword <;>
      cases h3 : props.onUpdateSetUserPermissions <;>
        cases h4 : props.onUpdateIfDatabaseDoesNotExist <;>
          cases h5 : props.onUpdateSetDatabaseOwnership <;>
            simp [handleUpdate, htok, h1, h2, h3, h4, h5, stepThen, allSuccess, runQuery,
                  getAdminClient, getUserClient, initSt, queriesOf, outcomeError]

/-- Witness for C10: a valid-token update where both secrets resolve to the same
username still succeeds and issues the password statement. -/
theorem update_no_collision_check_witness :
    ("db.local/app/root" : String) = String.intercalate "/" ["db.local", "app", "root"]
    ∧ (((fun _ => { username := "root", password := "pw" } : String → DbCredentials) "arn-user").username
      = ((fun _ => { username := "root", password := "pw" } : String → DbCredentials) "arn-admin").username)
    ∧ ((handleUpdate (fun _ => { username := "root", password := "pw" }) allSuccess ()
          { PhysicalResourceId := "db.local/app/root", ResourceProperties := pwAlwaysProps }).2
        = Except.ok { PhysicalResourceId := "db.local/app/root" }
      ∧ (pwAlwaysProps.onUpdateSetUserPassword = AlwaysNever.Always →
          (ConnKind.admin, Stmt.alterUserPassword "root" "pw")
            ∈ queriesOf (handleUpdate (fun _ => { username := "root", password := "pw" }) allSuccess ()
                { PhysicalResourceId := "db.local/app/root", ResourceProperties := pwAlwaysProps }).1.trace)) :=
  ⟨by decide, rfl,
   update_no_collision_check (fun _ => { username := "root", password := "pw" })
     { PhysicalResourceId := "db.local/app/root", ResourceProperties := pwAlwaysProps }
     (by decide) rfl⟩

/-- C4: behavior of the Create user-creation step when CREATE USER throws a
PostgresError with the given code and everything else succeeds: Adopt on
DuplicateUser issues the password ALTER then the permissions ALTER;
DeleteAndRecreate on DuplicateUser issues DROP USER then the original CREATE
USER again; Fail, or any code other than DuplicateUser, re-raises the error with
no further statement. -/
theorem create_user_step_policy (secrets : String → DbCredentials) (event : CreateEvent)
    (code : String)
    (hne : (secrets event.ResourceProperties.userSecretArn).username
         ≠ (secrets event.ResourceProperties.dbSecretArn).username) :
    ((event.ResourceProperties.onCreateIfExists = OnCreateIfExists.Adopt →
      code = DUPLICATE_OBJECT →
        queriesOf (handleCreate secrets (envExec (failFirst code)) 0 event).1.trace
          = [(ConnKind.admin,
              Stmt.createUser (secrets event.ResourceProperties.userSecretArn).username
                (secrets event.ResourceProperties.userSecretArn).password),
             (ConnKind.admin,
              Stmt.alterUserPassword (secrets event.ResourceProperties.userSecretArn).username
                (secrets event.ResourceProperties.userSecretArn).password),
             (ConnKind.admin,
              Stmt.alterUserPerms (secrets event.ResourceProperties.userSecretArn).username),
             (ConnKind.user, Stmt.createDatabase event.ResourceProperties.databaseName)]
        ∧ (handleCreate secrets (envExec (failFirst code)) 0 event).2
          = Except.ok { PhysicalResourceId := (String.intercalate "/"
              [event.ResourceProperties.dbClusterHostname, event.ResourceProperties.databaseName,
               (secrets event.ResourceProperties.userSecretArn).username]) })
     ∧ (event.ResourceProperties.onCreateIfExists = OnCreateIfExists.DeleteAndRecreate →
        code = DUPLICATE_OBJECT →
          queriesOf (handleCreate secrets (envExec (failFirst code)) 0 event).1.trace
            = [(ConnKind.admin,
                Stmt.createUser (secrets event.ResourceProperties.userSecretArn).username
                  (secrets event.ResourceProperties.userSecretArn).password),
               (ConnKind.admin,
                Stmt.dropUser (secrets event.ResourceProperties.userSecretArn).username),
               (ConnKind.admin,
                Stmt.createUser (secrets event.ResourceProperties.userSecretArn).username
                  (secrets event.ResourceProperties.userSecretArn).password),
               (ConnKind.user, Stmt.createDatabase event.ResourceProperties.databaseName)]
          ∧ (handleCreate secrets (envExec (failFirst code)) 0 event).2
            = Except.ok { PhysicalResourceId := (String.intercalate "/"
                [event.ResourceProperties.dbClusterHostname, event.ResourceProperties.databaseName,
                 (secrets event.ResourceProperties.userSecretArn).username]) })
     ∧ ((event.ResourceProperties.onCreateIfExists = OnCreateIfExists.Fail ∨ code ≠ DUPLICATE_OBJECT) →
        (handleCreate secrets (envExec (failFirst code)) 0 event).2
          = Except.error (HandlerError.pgRaised code)
        ∧ queriesOf (handleCreate secrets (envExec (failFirst code)) 0 event).1.trace
          = [(ConnKind.admin,
              Stmt.createUser (secrets event.ResourceProperties.userSecretArn).username
                (secrets event.ResourceProperties.userSecretArn).password)])) := by
  refine ⟨?_, ?_, ?_⟩
  · intro hpol hcode
    constructor <;>
      simp [handleCreate, hne, hpol, hcode, envExec, failFirst, runQuery, runStmts,
            getAdminClient, getUserClient, initSt, queriesOf]
  · intro hpol hcode
    constructor <;>
      simp [handleCreate, hne, hpol, hcode, envExec, failFirst, runQuery, runStmts,
            getAdminClient, getUserClient, initSt, queriesOf]
  · intro hp
    rcases hp with hp | hp <;>
      constructor <;>
        simp [handleCreate, hne, hp, envExec, failFirst, runQuery, runStmts,
              getAdminClient, getUserClient, initSt, queriesOf]

/-- Witness for C4: concrete Adopt event with a duplicate-user failure on the
first CREATE USER. -/
theorem create_user_step_policy_witness :
    (sampleSecrets "arn-user").username ≠ (sampleSecrets "arn-admin").username
    ∧ (queriesOf (handleCreate sampleSecrets (envExec (failFirst "42710")) 0
          { ResourceProperties := adoptProps }).1.trace
        = [(ConnKind.admin, Stmt.createUser "svc" "svcpw"),
           (ConnKind.admin, Stmt.alterUserPassword "svc" "svcpw"),
           (ConnKind.admin, Stmt.alterUserPerms "svc"),
           (ConnKind.user, Stmt.createDatabase "app")]
      ∧ (handleCreate sampleSecrets (envExec (failFirst "42710")) 0
          { ResourceProperties := adoptProps }).2
        = Except.ok { PhysicalResourceId := "db.local/app/svc" }) :=
  ⟨by decide,
   (create_user_step_policy sampleSecrets { ResourceProperties := adoptProps } "42710"
     (by decide)).1 rfl rfl⟩

end PgUserDb
